import Mathlib

set_option maxRecDepth 8192

namespace Handshake

/-! ### Bit-level helpers (32-bit arithmetic modelled on Nat, mod 2^32) -/

/-- Left-rotate a 32-bit word (represented as a Nat below 2^32) by n bits. -/
def rotl32 (n x : Nat) : Nat := ((x <<< n) ||| (x >>> (32 - n))) % 4294967296

/-- Big-endian 4-byte representation of a 32-bit word. -/
def bytesBE4 (n : Nat) : List Nat :=
  [n / 16777216 % 256, n / 65536 % 256, n / 256 % 256, n % 256]

/-- Big-endian 8-byte representation of a 64-bit length field. -/
def bytesBE8 (n : Nat) : List Nat :=
  [n / 72057594037927936 % 256, n / 281474976710656 % 256,
   n / 1099511627776 % 256, n / 4294967296 % 256,
   n / 16777216 % 256, n / 65536 % 256, n / 256 % 256, n % 256]

/-! ### SHA-1

Modelled from the spec: `hashlib.sha1` used by `accept_key` in
`websockets/utils.py` is not under `src/`; the spec fixes the derivation as
`base64(SHA-1(key ++ magic GUID))`, so SHA-1 (FIPS 180-4) is embedded here
over byte lists. -/

/-- Group a byte list into big-endian 32-bit words (4 bytes per word). -/
def wordsOfBytes : List Nat → List Nat
  | a :: b :: c :: d :: rest =>
      (((a * 256 + b) * 256 + c) * 256 + d) :: wordsOfBytes rest
  | _ => []

/-- Expand the 16 words of a block to the 80-word SHA-1 message schedule. -/
def sha1expand (w : List Nat) : List Nat :=
  (List.range 64).foldl
    (fun w i =>
      w ++ [rotl32 1 (((w.getD (i + 13) 0) ^^^ (w.getD (i + 8) 0)) ^^^
                      ((w.getD (i + 2) 0) ^^^ (w.getD i 0)))])
    w

/-- One SHA-1 compression step over an 80-word schedule. -/
def sha1compress (h : Nat × Nat × Nat × Nat × Nat) (w : List Nat) :
    Nat × Nat × Nat × Nat × Nat :=
  let (h0, h1, h2, h3, h4) := h
  let final := (List.range 80).foldl
    (fun st i =>
      let (a, b, c, d, e) := st
      let f :=
        if i < 20 then (b &&& c) ||| ((b ^^^ 4294967295) &&& d)
        else if i < 40 then (b ^^^ c) ^^^ d
        else if i < 60 then ((b &&& c) ||| (b &&& d)) ||| (c &&& d)
        else (b ^^^ c) ^^^ d
      let k :=
        if i < 20 then 1518500249
        else if i < 40 then 1859775393
        else if i < 60 then 2400959708
        else 3395469782
      let temp := (rotl32 5 a + f + e + k + w.getD i 0) % 4294967296
      (temp, a, rotl32 30 b, c, d))
    (h0, h1, h2, h3, h4)
  let (a, b, c, d, e) := final
  ((h0 + a) % 4294967296, (h1 + b) % 4294967296, (h2 + c) % 4294967296,
   (h3 + d) % 4294967296, (h4 + e) % 4294967296)

/-- Iterate the compression over consecutive 64-byte blocks; `fuel` is the
number of blocks remaining. -/
def sha1blocks : Nat → (Nat × Nat × Nat × Nat × Nat) → List Nat →
    Nat × Nat × Nat × Nat × Nat
  | 0, h, _ => h
  | n + 1, h, msg =>
      sha1blocks n (sha1compress h (sha1expand (wordsOfBytes (msg.take 64))))
        (msg.drop 64)

/-- SHA-1 of a byte list: pad to a multiple of 64 bytes with 0x80, zeros and
the 64-bit big-endian bit length, then compress block by block. -/
def sha1 (msg : List Nat) : List Nat :=
  let padded := msg ++ [128] ++ List.replicate ((119 - msg.length % 64) % 64) 0
    ++ bytesBE8 (msg.length * 8)
  let (h0, h1, h2, h3, h4) :=
    sha1blocks (padded.length / 64)
      (1732584193, 4023233417, 2562383102, 271733878, 3285377520) padded
  bytesBE4 h0 ++ bytesBE4 h1 ++ bytesBE4 h2 ++ bytesBE4 h3 ++ bytesBE4 h4

/-! ### Base64 (standard alphabet, padded)

Modelled from the spec: `base64.b64encode` / `base64.b64decode(.., validate=True)`
used by `websockets/utils.py` and `check_request` are not under `src/`; the spec
requires strict validation (no non-alphabet characters, correct padding) and the
standard RFC 4648 alphabet. -/

/-- The 64 characters of the standard base64 alphabet, in value order. -/
def b64alphabet : List Char :=
  "ABCDEFGHIJKLMNOPQRSTUVWXYZabcdefghijklmnopqrstuvwxyz0123456789+/".toList

/-- The alphabet character for a 6-bit value. -/
def b64char (n : Nat) : Char := b64alphabet.getD n '?'

/-- The 6-bit value of an alphabet character, `none` for non-alphabet input. -/
def b64charVal (c : Char) : Option Nat := b64alphabet.findIdx? (fun d => d == c)

/-- Base64-encode a byte list to characters, with `=` padding. -/
def b64encodeChars : List Nat → List Char
  | [] => []
  | [a] =>
      let n := a * 65536
      [b64char (n / 262144), b64char (n / 4096 % 64), '=', '=']
  | [a, b] =>
      let n := a * 65536 + b * 256
      [b64char (n / 262144), b64char (n / 4096 % 64), b64char (n / 64 % 64), '=']
  | a :: b :: c :: rest =>
      let n := a * 65536 + b * 256 + c
      b64char (n / 262144) :: b64char (n / 4096 % 64) :: b64char (n / 64 % 64) ::
        b64char (n % 64) :: b64encodeChars rest

/-- Strict base64 decoding of characters: length must be a multiple of 4, all
characters from the alphabet, `=` padding only at the very end. -/
def b64decodeChars : List Char → Option (List Nat)
  | [] => some []
  | c1 :: c2 :: c3 :: c4 :: rest =>
      match b64charVal c1, b64charVal c2 with
      | some v1, some v2 =>
        if c3 = '=' then
          if c4 = '=' ∧ rest = [] then
            some [(v1 * 262144 + v2 * 4096) / 65536]
          else none
        else
          match b64charVal c3 with
          | some v3 =>
            if c4 = '=' then
              if rest = [] then
                some [(v1 * 262144 + v2 * 4096 + v3 * 64) / 65536,
                      (v1 * 262144 + v2 * 4096 + v3 * 64) / 256 % 256]
              else none
            else
              match b64charVal c4, b64decodeChars rest with
              | some v4, some tail =>
                  some ([(v1 * 262144 + v2 * 4096 + v3 * 64 + v4) / 65536,
                         (v1 * 262144 + v2 * 4096 + v3 * 64 + v4) / 256 % 256,
                         (v1 * 262144 + v2 * 4096 + v3 * 64 + v4) % 256] ++ tail)
              | _, _ => none
          | none => none
      | _, _ => none
  | _ => none

/-- Base64-encode a byte list to a string. -/
def b64encode (bs : List Nat) : String := String.mk (b64encodeChars bs)

/-- Strictly base64-decode a string to a byte list. -/
def b64decode (s : String) : Option (List Nat) := b64decodeChars s.toList

/-! ### String helpers (ASCII/UTF-8 semantics, matching Python behaviour) -/

/-- UTF-8 byte sequence of one code point. -/
def utf8Char (c : Nat) : List Nat :=
  if c < 128 then [c]
  else if c < 2048 then [192 + c / 64, 128 + c % 64]
  else if c < 65536 then [224 + c / 4096, 128 + c / 64 % 64, 128 + c % 64]
  else [240 + c / 262144, 128 + c / 4096 % 64, 128 + c / 64 % 64, 128 + c % 64]

/-- UTF-8 bytes of a string (Python `str.encode()`). -/
def strBytes (s : String) : List Nat :=
  (s.toList.map (fun c => utf8Char c.toNat)).flatten

/-- ASCII lowercasing of a string (Python `str.lower()` on header tokens). -/
def lowerStr (s : String) : String := String.mk (s.toList.map Char.toLower)

/-- Optional whitespace allowed around tokens in HTTP list syntax. -/
def isOWS (c : Char) : Bool := c == ' ' || c == '\t'

/-- Strip optional whitespace from both ends of a character list. -/
def trimOWS (cs : List Char) : List Char :=
  ((cs.dropWhile isOWS).reverse.dropWhile isOWS).reverse

/-- Split a character list at every comma. -/
def splitCommas : List Char → List (List Char)
  | [] => [[]]
  | c :: rest =>
      if c = ',' then [] :: splitCommas rest
      else
        match splitCommas rest with
        | g :: gs => (c :: g) :: gs
        | [] => [[c]]

/-- Modelled from the spec: `parse_connection` / `parse_upgrade` from
`websockets/headers.py` are not under `src/`; the spec describes them as
splitting one header value on commas into tokens with surrounding whitespace
trimmed per RFC 7230 list syntax. -/
def parse_list (value : String) : List String :=
  (splitCommas value.toList).map (fun g => String.mk (trimOWS g))

/-- Python-style `sep.join(items)`. -/
def joinSep (sep : String) : List String → String
  | [] => ""
  | [s] => s
  | s :: rest => s ++ sep ++ joinSep sep rest

/-! ### Header collection

Modelled from the spec: `Headers` from `websockets/datastructures.py` is not
under `src/`; the spec describes it as an ordered multi-map from
case-insensitive names to string values with two read modes ("all values for a
name, in encounter order" and "the single value, failing distinctly on zero or
several occurrences") and single-value overwriting writes. -/

/-- An ordered header collection: (name, value) pairs in encounter order. -/
abbrev Headers := List (String × String)

/-- All values for a name, case-insensitively, in encounter order
(`Headers.get_all`). -/
def get_all (headers : Headers) (name : String) : List String :=
  (headers.filter (fun p => lowerStr p.1 == lowerStr name)).map Prod.snd

/-- Result of a single-value header lookup. -/
inductive HeaderLookup where
  | missing
  | multiple
  | found (value : String)
deriving DecidableEq, Repr

/-- Single-value lookup (`Headers.__getitem__`): `missing` stands for
`KeyError`, `multiple` for `MultipleValuesError`. -/
def get_one (headers : Headers) (name : String) : HeaderLookup :=
  match get_all headers name with
  | [] => .missing
  | [v] => .found v
  | _ => .multiple

/-- Single-value write (`headers[name] = value`): the spec specifies
overwriting semantics for the builders, replacing prior values of the name. -/
def set_header (headers : Headers) (name value : String) : Headers :=
  headers.filter (fun p => lowerStr p.1 != lowerStr name) ++ [(name, value)]

/-! ### Errors (`websockets/exceptions.py`, read contract only) -/

/-- The handshake failure taxonomy raised by the validators. -/
inductive HandshakeError where
  | invalidHeader (name : String) (message : Option String)
  | invalidHeaderValue (name : String) (value : String)
  | invalidUpgrade (kind : String) (value : String)
deriving DecidableEq, Repr

instance {ε α : Type} [DecidableEq ε] [DecidableEq α] :
    DecidableEq (Except ε α) := fun a b =>
  match a, b with
  | .ok a, .ok b => decidable_of_iff (a = b) (by simp)
  | .error a, .error b => decidable_of_iff (a = b) (by simp)
  | .ok _, .error _ => isFalse (by simp)
  | .error _, .ok _ => isFalse (by simp)

/-! ### The four handshake operations (`websockets/legacy/handshake.py`) -/

/-- Modelled from the spec: `accept_key` from `websockets/utils.py` is not
under `src/`; the spec fixes it as `base64(SHA-1(key ++ GUID))` over the
ASCII/UTF-8 bytes of the key string and the fixed magic constant. -/
def accept_key (key : String) : String :=
  b64encode (sha1 (strBytes (key ++ "258EAFA5-E914-47DA-95CA-C5AB0DC85B11")))

/-- Modelled from the spec: `generate_key` from `websockets/utils.py` is not
under `src/`; the spec fixes it as base64 of 16 cryptographically random
bytes. The randomness source is passed explicitly as `entropy`. -/
def generate_key (entropy : List Nat) : String := b64encode entropy

/-- The tokens of all `Connection` header occurrences, flattened:
`sum([parse_connection(value) for value in headers.get_all("Connection")], [])`. -/
def connectionTokens (headers : Headers) : List String :=
  ((get_all headers "Connection").map parse_list).flatten

/-- The tokens of all `Upgrade` header occurrences, flattened:
`sum([parse_upgrade(value) for value in headers.get_all("Upgrade")], [])`. -/
def upgradeTokens (headers : Headers) : List String :=
  ((get_all headers "Upgrade").map parse_list).flatten

/-- `build_request(headers)`: sets the four upgrade headers and returns the
generated key together with the updated collection. -/
def build_request (headers : Headers) (entropy : List Nat) : Headers × String :=
  let key := generate_key entropy
  let h := set_header headers "Upgrade" "websocket"
  let h := set_header h "Connection" "Upgrade"
  let h := set_header h "Sec-WebSocket-Key" key
  let h := set_header h "Sec-WebSocket-Version" "13"
  (h, key)

/-- The `Connection` token rule of both validators: at least one token
case-insensitively equal to `"upgrade"`. -/
def hasUpgradeToken (tokens : List String) : Prop :=
  tokens.any (fun value => lowerStr value == "upgrade") = true

instance (tokens : List String) : Decidable (hasUpgradeToken tokens) := by
  unfold hasUpgradeToken; infer_instance

/-- The `Upgrade` token rule of both validators: exactly one token whose
lowercase form is `"websocket"`. -/
def isWebsocketUpgrade (tokens : List String) : Prop :=
  tokens.length = 1 ∧ lowerStr (tokens.headD "") = "websocket"

instance (tokens : List String) : Decidable (isWebsocketUpgrade tokens) := by
  unfold isWebsocketUpgrade; infer_instance

/-- Steps 3-5 of `check_request`: the Sec-WebSocket-Key and
Sec-WebSocket-Version checks, reached once both token rules hold. -/
def checkKeyVersion (headers : Headers) : Except HandshakeError String :=
  match get_one headers "Sec-WebSocket-Key" with
  | .missing => .error (.invalidHeader "Sec-WebSocket-Key" none)
  | .multiple => .error (.invalidHeader "Sec-WebSocket-Key"
      (some "more than one Sec-WebSocket-Key header found"))
  | .found s_w_key =>
    match b64decode s_w_key with
    | none => .error (.invalidHeaderValue "Sec-WebSocket-Key" s_w_key)
    | some raw_key =>
      if raw_key.length ≠ 16 then
        .error (.invalidHeaderValue "Sec-WebSocket-Key" s_w_key)
      else
        match get_one headers "Sec-WebSocket-Version" with
        | .missing => .error (.invalidHeader "Sec-WebSocket-Version" none)
        | .multiple => .error (.invalidHeader "Sec-WebSocket-Version"
            (some "more than one Sec-WebSocket-Version header found"))
        | .found s_w_version =>
          if s_w_version ≠ "13" then
            .error (.invalidHeaderValue "Sec-WebSocket-Version" s_w_version)
          else
            .ok s_w_key

/-- `check_request(headers)`: validate a client handshake request and return
the key, or the first error raised. -/
def check_request (headers : Headers) : Except HandshakeError String :=
  if ¬ hasUpgradeToken (connectionTokens headers) then
    .error (.invalidUpgrade "Connection" (joinSep ", " (connectionTokens headers)))
  else if ¬ isWebsocketUpgrade (upgradeTokens headers) then
    .error (.invalidUpgrade "Upgrade" (joinSep ", " (upgradeTokens headers)))
  else
    checkKeyVersion headers

/-- `build_response(headers, key)`: sets the three response headers. -/
def build_response (headers : Headers) (key : String) : Headers :=
  let h := set_header headers "Upgrade" "websocket"
  let h := set_header h "Connection" "Upgrade"
  set_header h "Sec-WebSocket-Accept" (accept_key key)

/-- Steps 3-4 of `check_response`: the Sec-WebSocket-Accept check, reached
once both token rules hold. -/
def checkAccept (headers : Headers) (key : String) :
    Except HandshakeError Unit :=
  match get_one headers "Sec-WebSocket-Accept" with
  | .missing => .error (.invalidHeader "Sec-WebSocket-Accept" none)
  | .multiple => .error (.invalidHeader "Sec-WebSocket-Accept"
      (some "more than one Sec-WebSocket-Accept header found"))
  | .found s_w_accept =>
    if s_w_accept ≠ accept_key key then
      .error (.invalidHeaderValue "Sec-WebSocket-Accept" s_w_accept)
    else
      .ok ()

/-- `check_response(headers, key)`: validate a server handshake response
against the key sent earlier. Note the source joins the connection tokens
with `" "` here, unlike the `", "` used in `check_request`. -/
def check_response (headers : Headers) (key : String) :
    Except HandshakeError Unit :=
  if ¬ hasUpgradeToken (connectionTokens headers) then
    .error (.invalidUpgrade "Connection" (joinSep " " (connectionTokens headers)))
  else if ¬ isWebsocketUpgrade (upgradeTokens headers) then
    .error (.invalidUpgrade "Upgrade" (joinSep ", " (upgradeTokens headers)))
  else
    checkAccept headers key

/-! ### State-threaded versions

The Python functions receive the mutable `Headers` object; to observe the
frame condition (which calls write to the collection) the same code is
translated once more in explicit state-passing style, where every header
access takes the current collection and returns the collection after the
access. Reads (`get_all`, `__getitem__`) return it unchanged; writes
(`__setitem__`) return the updated collection. -/

/-- State-passing `headers.get_all(name)`. -/
def get_allS (headers : Headers) (name : String) : List String × Headers :=
  (get_all headers name, headers)

/-- State-passing `headers[name]` read. -/
def get_oneS (headers : Headers) (name : String) : HeaderLookup × Headers :=
  (get_one headers name, headers)

/-- State-passing `headers[name] = value`. -/
def set_headerS (headers : Headers) (name value : String) : Headers :=
  set_header headers name value

/-- State-passing `check_request`: returns the result together with the header
collection as it stands after the call; each access hands the collection on
to the next access. -/
def check_requestS (headers0 : Headers) :
    Except HandshakeError String × Headers :=
  let r1 := get_allS headers0 "Connection"
  let headers1 := r1.2
  let connection := (r1.1.map parse_list).flatten
  if ¬ hasUpgradeToken connection then
    (.error (.invalidUpgrade "Connection" (joinSep ", " connection)), headers1)
  else
    let r2 := get_allS headers1 "Upgrade"
    let headers2 := r2.2
    let upgrade := (r2.1.map parse_list).flatten
    if ¬ isWebsocketUpgrade upgrade then
      (.error (.invalidUpgrade "Upgrade" (joinSep ", " upgrade)), headers2)
    else
      let r3 := get_oneS headers2 "Sec-WebSocket-Key"
      let headers3 := r3.2
      match r3.1 with
      | .missing =>
          (.error (.invalidHeader "Sec-WebSocket-Key" none), headers3)
      | .multiple =>
          (.error (.invalidHeader "Sec-WebSocket-Key"
            (some "more than one Sec-WebSocket-Key header found")), headers3)
      | .found s_w_key =>
        match b64decode s_w_key with
        | none =>
            (.error (.invalidHeaderValue "Sec-WebSocket-Key" s_w_key),
             headers3)
        | some raw_key =>
          if raw_key.length ≠ 16 then
            (.error (.invalidHeaderValue "Sec-WebSocket-Key" s_w_key),
             headers3)
          else
            let r4 := get_oneS headers3 "Sec-WebSocket-Version"
            let headers4 := r4.2
            match r4.1 with
            | .missing =>
                (.error (.invalidHeader "Sec-WebSocket-Version" none),
                 headers4)
            | .multiple =>
                (.error (.invalidHeader "Sec-WebSocket-Version"
                  (some "more than one Sec-WebSocket-Version header found")),
                 headers4)
            | .found s_w_version =>
              if s_w_version ≠ "13" then
                (.error (.invalidHeaderValue "Sec-WebSocket-Version"
                  s_w_version), headers4)
              else
                (.ok s_w_key, headers4)

/-- State-passing `check_response`. -/
def check_responseS (headers0 : Headers) (key : String) :
    Except HandshakeError Unit × Headers :=
  let r1 := get_allS headers0 "Connection"
  let headers1 := r1.2
  let connection := (r1.1.map parse_list).flatten
  if ¬ hasUpgradeToken connection then
    (.error (.invalidUpgrade "Connection" (joinSep " " connection)), headers1)
  else
    let r2 := get_allS headers1 "Upgrade"
    let headers2 := r2.2
    let upgrade := (r2.1.map parse_list).flatten
    if ¬ isWebsocketUpgrade upgrade then
      (.error (.invalidUpgrade "Upgrade" (joinSep ", " upgrade)), headers2)
    else
      let r3 := get_oneS headers2 "Sec-WebSocket-Accept"
      let headers3 := r3.2
      match r3.1 with
      | .missing =>
          (.error (.invalidHeader "Sec-WebSocket-Accept" none), headers3)
      | .multiple =>
          (.error (.invalidHeader "Sec-WebSocket-Accept"
            (some "more than one Sec-WebSocket-Accept header found")),
           headers3)
      | .found s_w_accept =>
        if s_w_accept ≠ accept_key key then
          (.error (.invalidHeaderValue "Sec-WebSocket-Accept" s_w_accept),
           headers3)
        else
          (.ok (), headers3)

/-! ### Base64 lemmas -/

theorem b64charVal_b64char : ∀ v, v < 64 → b64charVal (b64char v) = some v := by
  decide

theorem b64char_ne_pad : ∀ v, v < 64 → b64char v ≠ '=' := by
  decide

/-- Strict decoding inverts encoding on genuine byte lists. -/
theorem b64_roundtrip :
    ∀ (l : List Nat), (∀ x ∈ l, x < 256) →
      b64decodeChars (b64encodeChars l) = some l := by
  intro l
  induction l using b64encodeChars.induct with
  | case1 =>
    intro _
    rfl
  | case2 a =>
    intro h
    have ha : a < 256 := h a (by simp)
    have h1 : a * 65536 / 262144 < 64 := by omega
    have h2 : a * 65536 / 4096 % 64 < 64 := Nat.mod_lt _ (by omega)
    simp only [b64encodeChars, b64decodeChars, b64charVal_b64char _ h1,
      b64charVal_b64char _ h2, if_pos rfl, and_self, ite_true, reduceIte]
    have e1 : a * 65536 / 262144 * 262144 + a * 65536 / 4096 % 64 * 4096 =
        a * 65536 := by omega
    rw [e1]
    have e2 : a * 65536 / 65536 = a := by omega
    rw [e2]
  | case3 a b =>
    intro h
    have ha : a < 256 := h a (by simp)
    have hb : b < 256 := h b (by simp)
    have h1 : (a * 65536 + b * 256) / 262144 < 64 := by omega
    have h2 : (a * 65536 + b * 256) / 4096 % 64 < 64 := Nat.mod_lt _ (by omega)
    have h3 : (a * 65536 + b * 256) / 64 % 64 < 64 := Nat.mod_lt _ (by omega)
    simp only [b64encodeChars, b64decodeChars, b64charVal_b64char _ h1,
      b64charVal_b64char _ h2, b64charVal_b64char _ h3,
      b64char_ne_pad _ h3, reduceIte, ite_true, if_pos rfl]
    have e1 : (a * 65536 + b * 256) / 262144 * 262144 +
        (a * 65536 + b * 256) / 4096 % 64 * 4096 +
        (a * 65536 + b * 256) / 64 % 64 * 64 = a * 65536 + b * 256 := by
      omega
    rw [e1]
    have e2 : (a * 65536 + b * 256) / 65536 = a := by omega
    have e3 : (a * 65536 + b * 256) / 256 % 256 = b := by omega
    rw [e2, e3]
  | case4 a b c rest ih =>
    intro h
    have ha : a < 256 := h a (by simp)
    have hb : b < 256 := h b (by simp)
    have hc : c < 256 := h c (by simp)
    have hrest : ∀ x ∈ rest, x < 256 := fun x hx => h x (by simp [hx])
    have h1 : (a * 65536 + b * 256 + c) / 262144 < 64 := by omega
    have h2 : (a * 65536 + b * 256 + c) / 4096 % 64 < 64 :=
      Nat.mod_lt _ (by omega)
    have h3 : (a * 65536 + b * 256 + c) / 64 % 64 < 64 :=
      Nat.mod_lt _ (by omega)
    have h4 : (a * 65536 + b * 256 + c) % 64 < 64 := Nat.mod_lt _ (by omega)
    simp only [b64encodeChars, b64decodeChars, b64charVal_b64char _ h1,
      b64charVal_b64char _ h2, b64charVal_b64char _ h3,
      b64charVal_b64char _ h4, ih hrest]
    rw [if_neg (b64char_ne_pad _ h3), if_neg (b64char_ne_pad _ h4)]
    have e1 : (a * 65536 + b * 256 + c) / 262144 * 262144 +
        (a * 65536 + b * 256 + c) / 4096 % 64 * 4096 +
        (a * 65536 + b * 256 + c) / 64 % 64 * 64 +
        (a * 65536 + b * 256 + c) % 64 = a * 65536 + b * 256 + c := by
      omega
    rw [e1]
    have e2 : (a * 65536 + b * 256 + c) / 65536 = a := by omega
    have e3 : (a * 65536 + b * 256 + c) / 256 % 256 = b := by omega
    have e4 : (a * 65536 + b * 256 + c) % 256 = c := by omega
    rw [e2, e3, e4]
    rfl

/-! ### Header collection lemmas -/

theorem get_all_append (h1 h2 : Headers) (name : String) :
    get_all (h1 ++ h2) name = get_all h1 name ++ get_all h2 name := by
  unfold get_all
  rw [List.filter_append, List.map_append]

theorem get_all_cons_ne (p : String × String) (t : Headers) (m : String)
    (hq : lowerStr p.1 ≠ lowerStr m) :
    get_all (p :: t) m = get_all t m := by
  unfold get_all
  rw [List.filter_cons, if_neg (by simp [hq])]

theorem get_all_cons_eq (p : String × String) (t : Headers) (m : String)
    (hq : lowerStr p.1 = lowerStr m) :
    get_all (p :: t) m = p.2 :: get_all t m := by
  unfold get_all
  rw [List.filter_cons, if_pos (by simp [hq])]
  rfl

theorem get_all_filter_ne (h : Headers) (n m : String)
    (hm : lowerStr m = lowerStr n) :
    get_all (h.filter (fun p => lowerStr p.1 != lowerStr n)) m = [] := by
  induction h with
  | nil => rfl
  | cons p t iht =>
    rw [List.filter_cons]
    by_cases hp : lowerStr p.1 = lowerStr n
    · rw [if_neg (by simp [hp])]
      exact iht
    · rw [if_pos (by simp [hp]),
        get_all_cons_ne p _ m (by rw [hm]; exact hp)]
      exact iht

theorem get_all_filter_other (h : Headers) (n m : String)
    (hm : lowerStr m ≠ lowerStr n) :
    get_all (h.filter (fun p => lowerStr p.1 != lowerStr n)) m = get_all h m := by
  induction h with
  | nil => rfl
  | cons p t iht =>
    rw [List.filter_cons]
    by_cases hp : lowerStr p.1 = lowerStr n
    · rw [if_neg (by simp [hp]), iht,
        get_all_cons_ne p t m (by rw [hp]; exact fun e => hm e.symm)]
    · rw [if_pos (by simp [hp])]
      by_cases hq : lowerStr p.1 = lowerStr m
      · rw [get_all_cons_eq p _ m hq, get_all_cons_eq p t m hq, iht]
      · rw [get_all_cons_ne p _ m hq, get_all_cons_ne p t m hq, iht]

theorem get_all_single (n v m : String) :
    get_all [(n, v)] m = if lowerStr m = lowerStr n then [v] else [] := by
  by_cases hm : lowerStr m = lowerStr n
  · rw [if_pos hm, get_all_cons_eq (n, v) [] m hm.symm]
    rfl
  · rw [if_neg hm, get_all_cons_ne (n, v) [] m (fun e => hm e.symm)]
    rfl

/-- How one overwriting write changes each multi-valued read. -/
theorem get_all_set_header (h : Headers) (n v m : String) :
    get_all (set_header h n v) m =
      if lowerStr m = lowerStr n then [v] else get_all h m := by
  unfold set_header
  rw [get_all_append, get_all_single]
  by_cases hm : lowerStr m = lowerStr n
  · rw [get_all_filter_ne h n m hm, if_pos hm, if_pos hm]
    rfl
  · rw [get_all_filter_other h n m hm, if_neg hm, if_neg hm,
      List.append_nil]

/-- Encoding a 16-byte nonce yields 24 characters. -/
theorem b64encode_sixteen_len (l : List Nat) (hlen : l.length = 16) :
    (b64encodeChars l).length = 24 := by
  match l, hlen with
  | [a1,a2,a3,a4,a5,a6,a7,a8,a9,a10,a11,a12,a13,a14,a15,a16], _ =>
    simp [b64encodeChars]

/-! ### Reads on the collections produced by the builders -/

theorem build_request_headers_eq (hs : Headers) (e : List Nat) :
    (build_request hs e).1 =
      set_header (set_header (set_header (set_header hs "Upgrade" "websocket")
        "Connection" "Upgrade") "Sec-WebSocket-Key" (b64encode e))
        "Sec-WebSocket-Version" "13" := rfl

theorem get_all_build_request_conn (hs : Headers) (e : List Nat) :
    get_all (build_request hs e).1 "Connection" = ["Upgrade"] := by
  rw [build_request_headers_eq, get_all_set_header, if_neg (by decide),
    get_all_set_header, if_neg (by decide), get_all_set_header,
    if_pos (by decide)]

theorem get_all_build_request_upgr (hs : Headers) (e : List Nat) :
    get_all (build_request hs e).1 "Upgrade" = ["websocket"] := by
  rw [build_request_headers_eq, get_all_set_header, if_neg (by decide),
    get_all_set_header, if_neg (by decide), get_all_set_header,
    if_neg (by decide), get_all_set_header, if_pos (by decide)]

theorem get_one_build_request_key (hs : Headers) (e : List Nat) :
    get_one (build_request hs e).1 "Sec-WebSocket-Key" = .found (b64encode e) := by
  unfold get_one
  rw [build_request_headers_eq, get_all_set_header, if_neg (by decide),
    get_all_set_header, if_pos (by decide)]

theorem get_one_build_request_version (hs : Headers) (e : List Nat) :
    get_one (build_request hs e).1 "Sec-WebSocket-Version" = .found "13" := by
  unfold get_one
  rw [build_request_headers_eq, get_all_set_header, if_pos (by decide)]

theorem build_response_headers_eq (hs : Headers) (key : String) :
    build_response hs key =
      set_header (set_header (set_header hs "Upgrade" "websocket")
        "Connection" "Upgrade") "Sec-WebSocket-Accept" (accept_key key) := rfl

theorem get_all_build_response_conn (hs : Headers) (key : String) :
    get_all (build_response hs key) "Connection" = ["Upgrade"] := by
  rw [build_response_headers_eq, get_all_set_header, if_neg (by decide),
    get_all_set_header, if_pos (by decide)]

theorem get_all_build_response_upgr (hs : Headers) (key : String) :
    get_all (build_response hs key) "Upgrade" = ["websocket"] := by
  rw [build_response_headers_eq, get_all_set_header, if_neg (by decide),
    get_all_set_header, if_neg (by decide), get_all_set_header,
    if_pos (by decide)]

theorem get_one_build_response_accept (hs : Headers) (key : String) :
    get_one (build_response hs key) "Sec-WebSocket-Accept" =
      .found (accept_key key) := by
  unfold get_one
  rw [build_response_headers_eq, get_all_set_header, if_pos (by decide)]

/-! ### Stage lemmas for the validators -/

theorem check_request_conn_fail (headers : Headers)
    (h : ¬ hasUpgradeToken (connectionTokens headers)) :
    check_request headers =
      .error (.invalidUpgrade "Connection"
        (joinSep ", " (connectionTokens headers))) := by
  unfold check_request
  rw [if_pos h]

theorem check_request_upgr_fail (headers : Headers)
    (h1 : hasUpgradeToken (connectionTokens headers))
    (h2 : ¬ isWebsocketUpgrade (upgradeTokens headers)) :
    check_request headers =
      .error (.invalidUpgrade "Upgrade"
        (joinSep ", " (upgradeTokens headers))) := by
  unfold check_request
  rw [if_neg (not_not_intro h1), if_pos h2]

theorem check_request_tokens_ok (headers : Headers)
    (h1 : hasUpgradeToken (connectionTokens headers))
    (h2 : isWebsocketUpgrade (upgradeTokens headers)) :
    check_request headers = checkKeyVersion headers := by
  unfold check_request
  rw [if_neg (not_not_intro h1), if_neg (not_not_intro h2)]

theorem check_response_conn_fail (headers : Headers) (key : String)
    (h : ¬ hasUpgradeToken (connectionTokens headers)) :
    check_response headers key =
      .error (.invalidUpgrade "Connection"
        (joinSep " " (connectionTokens headers))) := by
  unfold check_response
  rw [if_pos h]

theorem check_response_upgr_fail (headers : Headers) (key : String)
    (h1 : hasUpgradeToken (connectionTokens headers))
    (h2 : ¬ isWebsocketUpgrade (upgradeTokens headers)) :
    check_response headers key =
      .error (.invalidUpgrade "Upgrade"
        (joinSep ", " (upgradeTokens headers))) := by
  unfold check_response
  rw [if_neg (not_not_intro h1), if_pos h2]

theorem check_response_tokens_ok (headers : Headers) (key : String)
    (h1 : hasUpgradeToken (connectionTokens headers))
    (h2 : isWebsocketUpgrade (upgradeTokens headers)) :
    check_response headers key = checkAccept headers key := by
  unfold check_response
  rw [if_neg (not_not_intro h1), if_neg (not_not_intro h2)]

theorem checkKeyVersion_key_missing (headers : Headers)
    (hk : get_one headers "Sec-WebSocket-Key" = .missing) :
    checkKeyVersion headers = .error (.invalidHeader "Sec-WebSocket-Key" none) := by
  unfold checkKeyVersion
  rw [hk]

theorem checkKeyVersion_key_multiple (headers : Headers)
    (hk : get_one headers "Sec-WebSocket-Key" = .multiple) :
    checkKeyVersion headers = .error (.invalidHeader "Sec-WebSocket-Key"
      (some "more than one Sec-WebSocket-Key header found")) := by
  unfold checkKeyVersion
  rw [hk]

theorem checkKeyVersion_key_malformed (headers : Headers) (k : String)
    (hk : get_one headers "Sec-WebSocket-Key" = .found k)
    (hbad : b64decode k = none) :
    checkKeyVersion headers =
      .error (.invalidHeaderValue "Sec-WebSocket-Key" k) := by
  unfold checkKeyVersion
  rw [hk]
  simp only [hbad]

theorem checkKeyVersion_key_badlen (headers : Headers) (k : String)
    (bs : List Nat)
    (hk : get_one headers "Sec-WebSocket-Key" = .found k)
    (hdec : b64decode k = some bs) (hlen : bs.length ≠ 16) :
    checkKeyVersion headers =
      .error (.invalidHeaderValue "Sec-WebSocket-Key" k) := by
  unfold checkKeyVersion
  rw [hk]
  simp only [hdec]
  rw [if_pos hlen]

theorem checkKeyVersion_version_missing (headers : Headers) (k : String)
    (bs : List Nat)
    (hk : get_one headers "Sec-WebSocket-Key" = .found k)
    (hdec : b64decode k = some bs) (hlen : bs.length = 16)
    (hv : get_one headers "Sec-WebSocket-Version" = .missing) :
    checkKeyVersion headers =
      .error (.invalidHeader "Sec-WebSocket-Version" none) := by
  unfold checkKeyVersion
  rw [hk]
  simp only [hdec]
  rw [if_neg (not_not_intro hlen), hv]

theorem checkKeyVersion_version_multiple (headers : Headers) (k : String)
    (bs : List Nat)
    (hk : get_one headers "Sec-WebSocket-Key" = .found k)
    (hdec : b64decode k = some bs) (hlen : bs.length = 16)
    (hv : get_one headers "Sec-WebSocket-Version" = .multiple) :
    checkKeyVersion headers = .error (.invalidHeader "Sec-WebSocket-Version"
      (some "more than one Sec-WebSocket-Version header found")) := by
  unfold checkKeyVersion
  rw [hk]
  simp only [hdec]
  rw [if_neg (not_not_intro hlen), hv]

theorem checkKeyVersion_version_found (headers : Headers) (k v : String)
    (bs : List Nat)
    (hk : get_one headers "Sec-WebSocket-Key" = .found k)
    (hdec : b64decode k = some bs) (hlen : bs.length = 16)
    (hv : get_one headers "Sec-WebSocket-Version" = .found v) :
    checkKeyVersion headers =
      if v ≠ "13" then .error (.invalidHeaderValue "Sec-WebSocket-Version" v)
      else .ok k := by
  unfold checkKeyVersion
  rw [hk]
  simp only [hdec]
  rw [if_neg (not_not_intro hlen), hv]

theorem checkKeyVersion_no_upgrade_error (headers : Headers)
    (kind v : String) :
    checkKeyVersion headers ≠ .error (.invalidUpgrade kind v) := by
  unfold checkKeyVersion
  split <;> try simp
  split <;> try simp
  split <;> try simp
  split <;> try simp
  split <;> simp

theorem checkAccept_no_upgrade_error (headers : Headers) (key : String)
    (kind v : String) :
    checkAccept headers key ≠ .error (.invalidUpgrade kind v) := by
  unfold checkAccept
  split <;> try simp
  split <;> simp

/-! ### Claims -/

/-- C1: the accept value derivation used by `build_response` and
`check_response` is `base64(SHA-1(key ++ "258EAFA5-E914-47DA-95CA-C5AB0DC85B11"))`
over the bytes of the key string; in particular the RFC 6455 worked example
key yields exactly `"s3pPLMBiTxaQ9kYGzzhZRbK+xOo="`, which `build_response`
sets as `Sec-WebSocket-Accept` and `check_response` accepts. -/
theorem claim_C1 :
    accept_key "dGhlIHNhbXBsZSBub25jZQ==" = "s3pPLMBiTxaQ9kYGzzhZRbK+xOo=" ∧
    get_one (build_response [] "dGhlIHNhbXBsZSBub25jZQ==")
      "Sec-WebSocket-Accept" = .found "s3pPLMBiTxaQ9kYGzzhZRbK+xOo=" ∧
    (∀ (headers : Headers) (key : String),
      get_one (build_response headers key) "Sec-WebSocket-Accept" =
        .found (b64encode (sha1 (strBytes
          (key ++ "258EAFA5-E914-47DA-95CA-C5AB0DC85B11"))))) ∧
    check_response [("Connection", "Upgrade"), ("Upgrade", "websocket"),
        ("Sec-WebSocket-Accept", "s3pPLMBiTxaQ9kYGzzhZRbK+xOo=")]
      "dGhlIHNhbXBsZSBub25jZQ==" = .ok () :=
  ⟨by decide, by decide,
   fun headers key => get_one_build_response_accept headers key, by decide⟩

/-- C2: for every key string, `build_response` on a fresh collection followed
by `check_response` with the same key succeeds. -/
theorem claim_C2 (key : String) :
    check_response (build_response [] key) key = .ok () := by
  have h1 : hasUpgradeToken (connectionTokens (build_response [] key)) := by
    unfold connectionTokens
    rw [get_all_build_response_conn]
    decide
  have h2 : isWebsocketUpgrade (upgradeTokens (build_response [] key)) := by
    unfold upgradeTokens
    rw [get_all_build_response_upgr]
    decide
  rw [check_response_tokens_ok _ _ h1 h2]
  unfold checkAccept
  rw [get_one_build_response_accept]
  simp

/-- C3: for every header collection and every 16-byte nonce, `build_request`
followed by `check_request` on the resulting collection succeeds and returns
exactly the key `build_request` produced. -/
theorem claim_C3 (headers : Headers) (entropy : List Nat)
    (hlen : entropy.length = 16) (hbytes : ∀ x ∈ entropy, x < 256) :
    check_request (build_request headers entropy).1 =
      .ok (build_request headers entropy).2 := by
  have h1 : hasUpgradeToken (connectionTokens (build_request headers entropy).1) := by
    unfold connectionTokens
    rw [get_all_build_request_conn]
    decide
  have h2 : isWebsocketUpgrade (upgradeTokens (build_request headers entropy).1) := by
    unfold upgradeTokens
    rw [get_all_build_request_upgr]
    decide
  rw [check_request_tokens_ok _ h1 h2]
  have hdec : b64decode (b64encode entropy) = some entropy :=
    b64_roundtrip entropy hbytes
  rw [checkKeyVersion_version_found _ (b64encode entropy) "13" entropy
    (get_one_build_request_key headers entropy) hdec hlen
    (get_one_build_request_version headers entropy)]
  rw [if_neg (not_not_intro rfl)]
  rfl

theorem claim_C3_witness :
    check_request (build_request [] (List.replicate 16 0)).1 =
      .ok (build_request [] (List.replicate 16 0)).2 :=
  claim_C3 [] (List.replicate 16 0) (by decide) (by decide)

/-- C4: once the Connection/Upgrade checks pass and the key header is present
exactly once, `check_request` rejects with `InvalidHeaderValue` both a key
that fails strict base64 decoding and a key whose decoded length is not 16. -/
theorem claim_C4 (headers : Headers) (k : String)
    (h1 : hasUpgradeToken (connectionTokens headers))
    (h2 : isWebsocketUpgrade (upgradeTokens headers))
    (hk : get_one headers "Sec-WebSocket-Key" = .found k)
    (hbad : b64decode k = none ∨
      ∃ bs, b64decode k = some bs ∧ bs.length ≠ 16) :
    check_request headers =
      .error (.invalidHeaderValue "Sec-WebSocket-Key" k) := by
  rw [check_request_tokens_ok _ h1 h2]
  rcases hbad with hnone | ⟨bs, hsome, hbadlen⟩
  · exact checkKeyVersion_key_malformed _ _ hk hnone
  · exact checkKeyVersion_key_badlen _ _ bs hk hsome hbadlen

theorem claim_C4_witness :
    check_request [("Connection", "Upgrade"), ("Upgrade", "websocket"),
      ("Sec-WebSocket-Key", "AAAAAAAAAAAAAAAAAAAA")] =
    .error (.invalidHeaderValue "Sec-WebSocket-Key" "AAAAAAAAAAAAAAAAAAAA") :=
  claim_C4 _ _ (by decide) (by decide) (by decide)
    (Or.inr ⟨List.replicate 15 0, by decide, by decide⟩)

/-- C5: `check_request` raises `InvalidUpgrade` of kind `"Upgrade"` unless
the flattened Upgrade tokens are exactly one token lowercasing to
`"websocket"`; `Upgrade: chat` is rejected, mixed-case `Upgrade: WebSocket`
passes this step. -/
theorem claim_C5 (headers : Headers)
    (h1 : hasUpgradeToken (connectionTokens headers)) :
    (¬ isWebsocketUpgrade (upgradeTokens headers) →
      check_request headers = .error (.invalidUpgrade "Upgrade"
        (joinSep ", " (upgradeTokens headers)))) ∧
    (isWebsocketUpgrade (upgradeTokens headers) →
      ∀ kind v, check_request headers ≠ .error (.invalidUpgrade kind v)) ∧
    check_request [("Connection", "Upgrade"), ("Upgrade", "chat")] =
      .error (.invalidUpgrade "Upgrade" "chat") ∧
    check_request [("Connection", "Upgrade"), ("Upgrade", "WebSocket"),
        ("Sec-WebSocket-Key", "AAAAAAAAAAAAAAAAAAAAAA=="),
        ("Sec-WebSocket-Version", "13")] = .ok "AAAAAAAAAAAAAAAAAAAAAA==" := by
  refine ⟨fun h2 => check_request_upgr_fail headers h1 h2,
    fun h2 kind v => ?_, by decide, by decide⟩
  rw [check_request_tokens_ok _ h1 h2]
  exact checkKeyVersion_no_upgrade_error headers kind v

theorem claim_C5_witness :
    check_request [("Connection", "Upgrade"), ("Upgrade", "chat")] =
      .error (.invalidUpgrade "Upgrade" "chat") :=
  (claim_C5 [("Connection", "Upgrade"), ("Upgrade", "chat")]
    (by decide)).2.2.1

/-- C6: `check_request` raises `InvalidUpgrade` of kind `"Connection"` unless
some flattened Connection token lowercases to `"upgrade"`; extra tokens are
ignored (`Connection: keep-alive, Upgrade` passes) and an absent Connection
header is rejected. -/
theorem claim_C6 (headers : Headers)
    (habs : ¬ hasUpgradeToken (connectionTokens headers)) :
    check_request headers = .error (.invalidUpgrade "Connection"
      (joinSep ", " (connectionTokens headers))) ∧
    check_request [("Upgrade", "websocket")] =
      .error (.invalidUpgrade "Connection" "") ∧
    check_request [("Connection", "keep-alive, Upgrade"),
        ("Upgrade", "websocket"),
        ("Sec-WebSocket-Key", "AAAAAAAAAAAAAAAAAAAAAA=="),
        ("Sec-WebSocket-Version", "13")] = .ok "AAAAAAAAAAAAAAAAAAAAAA==" :=
  ⟨check_request_conn_fail headers habs, by decide, by decide⟩

theorem claim_C6_witness :
    check_request [("Upgrade", "websocket")] =
      .error (.invalidUpgrade "Connection"
        (joinSep ", " (connectionTokens [("Upgrade", "websocket")]))) :=
  (claim_C6 [("Upgrade", "websocket")] (by decide)).1

/-- C7: `check_request` reads Sec-WebSocket-Version with single-value
semantics: `InvalidHeader` when absent, `InvalidHeader` when duplicated (even
with two identical `"13"` values), `InvalidHeaderValue` for any single value
other than `"13"`. -/
theorem claim_C7 (headers : Headers) (k : String) (bs : List Nat)
    (h1 : hasUpgradeToken (connectionTokens headers))
    (h2 : isWebsocketUpgrade (upgradeTokens headers))
    (hk : get_one headers "Sec-WebSocket-Key" = .found k)
    (hdec : b64decode k = some bs) (hlen : bs.length = 16) :
    (get_one headers "Sec-WebSocket-Version" = .missing →
      check_request headers =
        .error (.invalidHeader "Sec-WebSocket-Version" none)) ∧
    (get_one headers "Sec-WebSocket-Version" = .multiple →
      check_request headers = .error (.invalidHeader "Sec-WebSocket-Version"
        (some "more than one Sec-WebSocket-Version header found"))) ∧
    (∀ v, get_one headers "Sec-WebSocket-Version" = .found v → v ≠ "13" →
      check_request headers =
        .error (.invalidHeaderValue "Sec-WebSocket-Version" v)) ∧
    check_request [("Connection", "Upgrade"), ("Upgrade", "websocket"),
        ("Sec-WebSocket-Key", "AAAAAAAAAAAAAAAAAAAAAA=="),
        ("Sec-WebSocket-Version", "13"), ("Sec-WebSocket-Version", "13")] =
      .error (.invalidHeader "Sec-WebSocket-Version"
        (some "more than one Sec-WebSocket-Version header found")) := by
  refine ⟨fun hv => ?_, fun hv => ?_, fun v hv hne => ?_, by decide⟩
  · rw [check_request_tokens_ok _ h1 h2]
    exact checkKeyVersion_version_missing _ _ bs hk hdec hlen hv
  · rw [check_request_tokens_ok _ h1 h2]
    exact checkKeyVersion_version_multiple _ _ bs hk hdec hlen hv
  · rw [check_request_tokens_ok _ h1 h2,
      checkKeyVersion_version_found _ _ v bs hk hdec hlen hv, if_pos hne]

theorem claim_C7_witness :
    check_request [("Connection", "Upgrade"), ("Upgrade", "websocket"),
        ("Sec-WebSocket-Key", "AAAAAAAAAAAAAAAAAAAAAA=="),
        ("Sec-WebSocket-Version", "13"), ("Sec-WebSocket-Version", "13")] =
      .error (.invalidHeader "Sec-WebSocket-Version"
        (some "more than one Sec-WebSocket-Version header found")) :=
  ((claim_C7 [("Connection", "Upgrade"), ("Upgrade", "websocket"),
      ("Sec-WebSocket-Key", "AAAAAAAAAAAAAAAAAAAAAA=="),
      ("Sec-WebSocket-Version", "13"), ("Sec-WebSocket-Version", "13")]
    "AAAAAAAAAAAAAAAAAAAAAA==" (List.replicate 16 0)
    (by decide) (by decide) (by decide) (by decide) (by decide)).2.1
    (by decide))

/-- C8: `check_request` is fail-fast in the order Connection tokens, Upgrade
tokens, key presence, key base64/length, version: the result is fully
determined by the first violated rule, later rules never influence it. -/
theorem claim_C8 (headers : Headers) :
    (¬ hasUpgradeToken (connectionTokens headers) →
      check_request headers = .error (.invalidUpgrade "Connection"
        (joinSep ", " (connectionTokens headers)))) ∧
    (hasUpgradeToken (connectionTokens headers) →
      ¬ isWebsocketUpgrade (upgradeTokens headers) →
      check_request headers = .error (.invalidUpgrade "Upgrade"
        (joinSep ", " (upgradeTokens headers)))) ∧
    (hasUpgradeToken (connectionTokens headers) →
      isWebsocketUpgrade (upgradeTokens headers) →
      (get_one headers "Sec-WebSocket-Key" = .missing →
        check_request headers =
          .error (.invalidHeader "Sec-WebSocket-Key" none)) ∧
      (get_one headers "Sec-WebSocket-Key" = .multiple →
        check_request headers = .error (.invalidHeader "Sec-WebSocket-Key"
          (some "more than one Sec-WebSocket-Key header found"))) ∧
      (∀ k, get_one headers "Sec-WebSocket-Key" = .found k →
        (b64decode k = none →
          check_request headers =
            .error (.invalidHeaderValue "Sec-WebSocket-Key" k)) ∧
        (∀ bs, b64decode k = some bs → bs.length ≠ 16 →
          check_request headers =
            .error (.invalidHeaderValue "Sec-WebSocket-Key" k)) ∧
        (∀ bs, b64decode k = some bs → bs.length = 16 →
          (get_one headers "Sec-WebSocket-Version" = .missing →
            check_request headers =
              .error (.invalidHeader "Sec-WebSocket-Version" none)) ∧
          (get_one headers "Sec-WebSocket-Version" = .multiple →
            check_request headers =
              .error (.invalidHeader "Sec-WebSocket-Version"
                (some "more than one Sec-WebSocket-Version header found"))) ∧
          (∀ v, get_one headers "Sec-WebSocket-Version" = .found v →
            (v ≠ "13" → check_request headers =
              .error (.invalidHeaderValue "Sec-WebSocket-Version" v)) ∧
            (v = "13" → check_request headers = .ok k))))) := by
  refine ⟨fun hc => check_request_conn_fail headers hc,
    fun h1 h2 => check_request_upgr_fail headers h1 h2,
    fun h1 h2 => ?_⟩
  rw [check_request_tokens_ok _ h1 h2]
  refine ⟨fun hk => checkKeyVersion_key_missing _ hk,
    fun hk => checkKeyVersion_key_multiple _ hk,
    fun k hk => ⟨fun hbad => checkKeyVersion_key_malformed _ _ hk hbad,
      fun bs hdec hbadlen =>
        checkKeyVersion_key_badlen _ _ bs hk hdec hbadlen,
      fun bs hdec hlen =>
        ⟨fun hv => checkKeyVersion_version_missing _ _ bs hk hdec hlen hv,
         fun hv => checkKeyVersion_version_multiple _ _ bs hk hdec hlen hv,
         fun v hv => ⟨fun hne => by
            rw [checkKeyVersion_version_found _ _ v bs hk hdec hlen hv,
              if_pos hne],
          fun heq => by
            rw [checkKeyVersion_version_found _ _ v bs hk hdec hlen hv,
              if_neg (not_not_intro heq)]⟩⟩⟩⟩

theorem claim_C8_witness :
    check_request [] = .error (.invalidUpgrade "Connection"
      (joinSep ", " (connectionTokens []))) :=
  (claim_C8 []).1 (by decide)

/-- C9: the Connection- and Upgrade-token steps of `check_response` make the
same pass/fail decision with the same failure kind as those of
`check_request`, for every header collection. -/
theorem claim_C9 (headers : Headers) (key : String) :
    (¬ hasUpgradeToken (connectionTokens headers) →
      check_request headers = .error (.invalidUpgrade "Connection"
        (joinSep ", " (connectionTokens headers))) ∧
      check_response headers key = .error (.invalidUpgrade "Connection"
        (joinSep " " (connectionTokens headers)))) ∧
    (hasUpgradeToken (connectionTokens headers) →
      ¬ isWebsocketUpgrade (upgradeTokens headers) →
      check_request headers = .error (.invalidUpgrade "Upgrade"
        (joinSep ", " (upgradeTokens headers))) ∧
      check_response headers key = .error (.invalidUpgrade "Upgrade"
        (joinSep ", " (upgradeTokens headers)))) ∧
    (hasUpgradeToken (connectionTokens headers) →
      isWebsocketUpgrade (upgradeTokens headers) →
      (∀ kind v, check_request headers ≠ .error (.invalidUpgrade kind v)) ∧
      (∀ kind v, check_response headers key ≠
        .error (.invalidUpgrade kind v))) := by
  refine ⟨fun hc => ⟨check_request_conn_fail headers hc,
      check_response_conn_fail headers key hc⟩,
    fun h1 h2 => ⟨check_request_upgr_fail headers h1 h2,
      check_response_upgr_fail headers key h1 h2⟩,
    fun h1 h2 => ⟨fun kind v => ?_, fun kind v => ?_⟩⟩
  · rw [check_request_tokens_ok _ h1 h2]
    exact checkKeyVersion_no_upgrade_error headers kind v
  · rw [check_response_tokens_ok _ _ h1 h2]
    exact checkAccept_no_upgrade_error headers key kind v

/-- The state-passing request validator only reads: it returns the pure
result and leaves the collection exactly as given. -/
theorem check_requestS_spec (headers : Headers) :
    check_requestS headers = (check_request headers, headers) := by
  simp only [check_requestS, check_request, get_allS, get_oneS,
    connectionTokens, upgradeTokens, checkKeyVersion]
  by_cases h1 :
      hasUpgradeToken (((get_all headers "Connection").map parse_list).flatten)
  · rw [if_neg (not_not_intro h1), if_neg (not_not_intro h1)]
    by_cases h2 :
        isWebsocketUpgrade (((get_all headers "Upgrade").map parse_list).flatten)
    · rw [if_neg (not_not_intro h2), if_neg (not_not_intro h2)]
      cases hk : get_one headers "Sec-WebSocket-Key" with
      | missing => rfl
      | multiple => rfl
      | found k =>
        cases hd : b64decode k with
        | none => simp [hd]
        | some bs =>
          cases hv : get_one headers "Sec-WebSocket-Version" with
          | missing => by_cases hb16 : bs.length = 16 <;> simp [hd, hv, hb16]
          | multiple => by_cases hb16 : bs.length = 16 <;> simp [hd, hv, hb16]
          | found v =>
            by_cases hb : bs.length ≠ 16
            · simp [hd, hv, hb]
            · by_cases hv13 : v ≠ "13"
              · simp [hd, hv, hb, hv13]
              · simp [hd, hv, hb, hv13]
    · rw [if_pos h2, if_pos h2]
  · rw [if_pos h1, if_pos h1]

/-- The state-passing response validator only reads: it returns the pure
result and leaves the collection exactly as given. -/
theorem check_responseS_spec (headers : Headers) (key : String) :
    check_responseS headers key = (check_response headers key, headers) := by
  simp only [check_responseS, check_response, get_allS, get_oneS,
    connectionTokens, upgradeTokens, checkAccept]
  by_cases h1 :
      hasUpgradeToken (((get_all headers "Connection").map parse_list).flatten)
  · rw [if_neg (not_not_intro h1), if_neg (not_not_intro h1)]
    by_cases h2 :
        isWebsocketUpgrade (((get_all headers "Upgrade").map parse_list).flatten)
    · rw [if_neg (not_not_intro h2), if_neg (not_not_intro h2)]
      cases ha : get_one headers "Sec-WebSocket-Accept" with
      | missing => rfl
      | multiple => rfl
      | found s =>
        by_cases hs : s ≠ accept_key key
        · simp [hs]
        · simp [hs]
    · rw [if_pos h2, if_pos h2]
  · rw [if_pos h1, if_pos h1]

/-- C10: the validators never modify the header collection: run in
state-passing style, each returns its pure result together with the input
collection unchanged, on every input (success or failure alike). -/
theorem claim_C10 (headers : Headers) (key : String) :
    check_requestS headers = (check_request headers, headers) ∧
    check_responseS headers key = (check_response headers key, headers) :=
  ⟨check_requestS_spec headers, check_responseS_spec headers key⟩

theorem claim_C9_witness :
    check_request [("Connection", "close")] =
      .error (.invalidUpgrade "Connection"
        (joinSep ", " (connectionTokens [("Connection", "close")]))) ∧
    check_response [("Connection", "close")] "k" =
      .error (.invalidUpgrade "Connection"
        (joinSep " " (connectionTokens [("Connection", "close")]))) :=
  (claim_C9 [("Connection", "close")] "k").1 (by decide)

end Handshake
